import Mathlib

/-!
Verification of the Oracle interview platform core.

Shallow embedding of:
- the interview engine (getNextQuestion, processResponse, checkCompletion)
  in its delta-returning form, whose result type ProcessResult carries an
  optional `updates` record of changed session fields;
- the interview type registry with the four shipped archetypes;
- the analyzer (generateAnalysis, calculateScore and its components);
- the adaptive interview workflow state machine (signal handler for
  editContext, the bounded interview question loop);
- the two completion-check activity variants named processResponse in the
  activities layer.

JavaScript strings are modelled as Lean String / List Char (ASCII),
JavaScript numbers as Rat, Date values as integer epoch milliseconds,
and plain objects used as string-keyed records as association lists in
insertion order.
-/

/-- The apostrophe character, written by code point to keep source plain. -/
def apos : Char := Char.ofNat 39

/-- Model of a JavaScript runtime value as far as the engine inspects it. -/
inductive JSValue where
  | str (s : String)
  | num (q : ℚ)
  | bool (b : Bool)
  | null
  | undefined
  | arr (xs : List JSValue)

/-- JavaScript truthiness (NaN is not modelled; Rat 0 is the falsy number). -/
def jsTruthy : JSValue → Bool
  | .str s => s ≠ ""
  | .num q => q ≠ 0
  | .bool b => b
  | .null => false
  | .undefined => false
  | .arr _ => true

/-- Whitespace recognised by the modelled String.prototype.trim. -/
def isWS (c : Char) : Bool :=
  c = ' ' || c = '\t' || c = '\n' || c = '\r'

/-- String.prototype.trim on a character list. -/
def jsTrim (s : List Char) : List Char :=
  ((s.dropWhile isWS).reverse.dropWhile isWS).reverse

/-- String.prototype.toLowerCase, ASCII range. -/
def lowerChars (s : List Char) : List Char :=
  s.map Char.toLower

/-- Word character in the sense of the regex class \w. -/
def isWordChar (c : Char) : Bool :=
  (('a' ≤ c && c ≤ 'z') || ('A' ≤ c && c ≤ 'Z') || ('0' ≤ c && c ≤ '9') || c = '_')

/-- True when position i of t is absent (past the end) or not a word char. -/
def nonWordAt (t : List Char) (i : Nat) : Bool :=
  match t.get? i with
  | some c => !isWordChar c
  | none => true

/-- The phrase p occurs in t starting at i with regex word boundaries on
both sides.  Every phrase considered starts and ends with a word character,
for which the boundary test reduces to the neighbour being absent or
non-word. -/
def matchAtWB (t p : List Char) (i : Nat) : Bool :=
  p.isPrefixOf (t.drop i) &&
    (i = 0 || nonWordAt t (i - 1)) &&
    nonWordAt t (i + p.length)

/-- A regex alternation of word-bounded phrases tests true on t. -/
def testWB (phrases : List (List Char)) (t : List Char) : Bool :=
  (List.range (t.length + 1)).any fun i => phrases.any fun p => matchAtWB t p i

/-- String.prototype.includes as substring containment on char lists. -/
def listContains (hay needle : List Char) : Bool :=
  (List.range (hay.length + 1)).any fun i => needle.isPrefixOf (hay.drop i)

/-- Number(v) coercion; none stands for NaN.  String parsing covers
optionally signed decimal digit strings (with one optional point), the
forms the interview data uses; exotic numeric syntax is out of scope. -/
def parseDigits (cs : List Char) : Option ℕ :=
  cs.foldl (fun acc c =>
    match acc with
    | none => none
    | some n => if '0' ≤ c && c ≤ '9' then some (n * 10 + (c.toNat - '0'.toNat)) else none)
    (if cs.isEmpty then none else some 0)

def parseDecimal (cs : List Char) : Option ℚ :=
  match cs.splitOn '.' with
  | [whole] => (parseDigits whole).map (fun n => (n : ℚ))
  | [whole, frac] =>
      match parseDigits whole, parseDigits frac with
      | some w, some f => some ((w : ℚ) + (f : ℚ) / ((10 : ℚ) ^ frac.length))
      | _, _ => none
  | _ => none

def parseSigned (cs : List Char) : Option ℚ :=
  match cs with
  | '-' :: rest => (parseDecimal rest).map (fun q => -q)
  | '+' :: rest => parseDecimal rest
  | _ => parseDecimal cs

def jsToNumber : JSValue → Option ℚ
  | .num q => some q
  | .bool b => some (if b then 1 else 0)
  | .null => some 0
  | .undefined => none
  | .str s =>
      let t := jsTrim s.data
      if t.isEmpty then some 0 else parseSigned t
  | .arr [] => some 0
  | .arr [x] => jsToNumber x
  | .arr _ => none

/-- String(v) / v.toString coercion.  Integral numbers print as in JS;
non-integral rationals print in Lean form, which is only ever compared
against integer option strings, so validity outcomes agree. -/
def jsToString : JSValue → List Char
  | .str s => s.data
  | .num q => (toString q).data
  | .bool b => if b then "true".data else "false".data
  | .null => "null".data
  | .undefined => "undefined".data
  | .arr xs => ((xs.attach.map (fun x => jsToString x.1)).intersperse ",".data).flatten
termination_by v => sizeOf v
decreasing_by
  simp_wf
  have := List.sizeOf_lt_of_mem x.2
  omega

/-- new Date(v) produces a valid date.  Numbers are accepted; strings are
accepted in the digit-dash shapes the interviews use (full JS date parsing
is not modelled; no claim depends on it). -/
def jsDateValid : JSValue → Bool
  | .num _ => true
  | .str s =>
      let parts := s.data.splitOn '-'
      parts.length > 0 &&
        parts.all (fun p => !p.isEmpty && p.all (fun c => '0' ≤ c && c ≤ '9'))
  | _ => false

/-- JS Math.round: round half toward positive infinity. -/
def jsRound (q : ℚ) : ℤ := ⌊q + 1 / 2⌋

/-- Association-list read of a JS string-keyed record field. -/
def recordGet {α : Type} (m : List (String × α)) (k : String) : Option α :=
  (m.find? (fun kv => kv.1 = k)).map Prod.snd

/-- Spread-update of a JS string-keyed record: an existing key keeps its
position and takes the new value, a new key is appended. -/
def recordSet {α : Type} (m : List (String × α)) (k : String) (v : α) : List (String × α) :=
  if (m.map Prod.fst).contains k then
    m.map (fun kv => if kv.1 = k then (k, v) else kv)
  else
    m ++ [(k, v)]

/-! ## Core session and interview types (src/core/sessions/types.ts, src/core/types) -/

inductive QType where
  | text
  | scale
  | yes_no
  | number
  | date
  | multiple_choice
  | multiple_select
deriving DecidableEq, Repr

structure Question where
  id : String
  text : String
  type : QType
  required : Bool
  options : Option (List String) := none
deriving DecidableEq, Repr

inductive CompletionRule where
  | all_required_answered
  | step_limit_reached
  | user_indicated_done
  | timeout_rule
deriving DecidableEq, Repr

structure InterviewDefinition where
  type : String
  maxSteps : Nat
  description : String
  questions : List Question
  completionCriteria : List CompletionRule
deriving DecidableEq, Repr

inductive SStatus where
  | active
  | completed
  | paused
deriving DecidableEq, Repr

/-- The metadata object processResponse denormalises onto every stored
response.  The TS field is typed any; checkCompletion reads it defensively
through optional chaining, hence the Option wrappers. -/
structure RespMeta where
  questionId : String
  questionText : String
  questionType : Option QType := none
  step : Option Int := none

structure ResponseData where
  response : JSValue
  metadata : Option RespMeta
  timestamp : Int

structure InterviewSession where
  id : String
  userId : String
  interviewType : String
  status : SStatus
  currentStep : Nat
  responses : List (String × ResponseData)
  contextData : List (String × JSValue)
  createdAt : Int
  updatedAt : Int
  completedAt : Option Int := none

/-- The partial-session delta carried by a successful ProcessResult. -/
structure SessionUpdates where
  currentStep : Nat
  responses : List (String × ResponseData)
  updatedAt : Int
  status : SStatus
  completedAt : Option Int

structure ProcessResult where
  success : Bool
  nextQuestion : Option Question
  completed : Bool
  error : Option String
  updates : Option SessionUpdates

/-! ## Interview type registry (src/core/types) -/

def GeneralInterviewType : InterviewDefinition :=
  { type := "general"
    maxSteps := 5
    description := "General purpose interview for basic context gathering"
    questions :=
      [ { id := "purpose", text := "What brings you here today?",
          type := .text, required := true }
      , { id := "experience",
          text := "How would you rate your experience level with this type of interaction?",
          type := .scale, required := true,
          options := some ["1", "2", "3", "4", "5"] }
      , { id := "goals", text := "What are your primary goals for this interaction?",
          type := .text, required := true }
      , { id := "timeline",
          text := "What is your preferred timeline for achieving these goals?",
          type := .text, required := true }
      , { id := "additional",
          text := "Is there any additional information you would like to share?",
          type := .text, required := false } ]
    completionCriteria := [.all_required_answered, .step_limit_reached] }

def TenantScreeningInterviewType : InterviewDefinition :=
  { type := "tenant-screening"
    maxSteps := 8
    description := "Apartment rental qualification and tenant screening process"
    questions :=
      [ { id := "contact_info",
          text := "Please provide your full name and contact information.",
          type := .text, required := true }
      , { id := "employment_status",
          text := "What is your current employment status?",
          type := .multiple_choice, required := true,
          options := some ["Employed full-time", "Employed part-time", "Self-employed",
                           "Student", "Retired", "Unemployed"] }
      , { id := "monthly_income",
          text := "What is your gross monthly income?",
          type := .number, required := true }
      , { id := "rental_history",
          text := "Do you have previous rental experience? If yes, please describe.",
          type := .text, required := true }
      , { id := "reason_for_moving",
          text := "What is your primary reason for moving?",
          type := .multiple_choice, required := true,
          options := some ["Job relocation", "Upgrading space", "Downsizing",
                           "Financial reasons", "Lifestyle change", "Other"] }
      , { id := "preferred_move_date",
          text := "When would you like to move in?",
          type := .date, required := true }
      , { id := "pets",
          text := "Do you have any pets? If yes, please provide details.",
          type := .text, required := true }
      , { id := "references",
          text := "Can you provide references from previous landlords or employers?",
          type := .yes_no, required := true } ]
    completionCriteria := [.all_required_answered, .step_limit_reached] }

def CustomerOnboardingInterviewType : InterviewDefinition :=
  { type := "customer-onboarding"
    maxSteps := 6
    description := "New customer onboarding and preference gathering process"
    questions :=
      [ { id := "welcome",
          text := "Welcome! How did you hear about our services?",
          type := .multiple_choice, required := true,
          options := some ["Search engine", "Social media", "Referral from friend",
                           "Advertisement", "Website", "Other"] }
      , { id := "primary_need",
          text := "What is your primary need or interest in our services?",
          type := .text, required := true }
      , { id := "urgency",
          text := "How urgent is your need for our services?",
          type := .scale, required := true,
          options := some ["1", "2", "3", "4", "5"] }
      , { id := "budget_range",
          text := "What is your budget range for this service?",
          type := .multiple_choice, required := true,
          options := some ["Under $500", "$500-$1000", "$1000-$2500",
                           "$2500-$5000", "Over $5000", "Not sure"] }
      , { id := "communication_preference",
          text := "What is your preferred method of communication?",
          type := .multiple_select, required := true,
          options := some ["Email", "Phone", "Text message", "Video call",
                           "In-person meeting"] }
      , { id := "questions",
          text := "Do you have any questions about our services or the onboarding process?",
          type := .text, required := false } ]
    completionCriteria := [.all_required_answered, .step_limit_reached] }

def MaintenanceRequestInterviewType : InterviewDefinition :=
  { type := "maintenance-request"
    maxSteps := 7
    description := "Apartment maintenance request gathering and classification process"
    questions :=
      [ { id := "unit_identification",
          text := "Please provide your unit number and building address.",
          type := .text, required := true }
      , { id := "issue_description",
          text := "Please describe the maintenance issue in detail.",
          type := .text, required := true }
      , { id := "issue_category",
          text := "What type of maintenance issue is this?",
          type := .multiple_choice, required := true,
          options := some ["Plumbing", "Electrical", "HVAC", "Appliance",
                           "Structural", "Pest control", "Other"] }
      , { id := "urgency_level",
          text := "How urgent is this maintenance request?",
          type := .multiple_choice, required := true,
          options := some ["Emergency (immediate)", "Urgent (within 24 hours)",
                           "Normal (within a week)", "Low priority (when convenient)"] }
      , { id := "access_availability",
          text := "When are you available to provide access to maintenance staff?",
          type := .text, required := true }
      , { id := "contact_preference",
          text := "How would you prefer to be contacted about this request?",
          type := .multiple_choice, required := true,
          options := some ["Phone call", "Text message", "Email", "In-person visit"] }
      , { id := "photos_description",
          text := "Would you be able to provide photos of the issue to help maintenance staff prepare?",
          type := .yes_no, required := false } ]
    completionCriteria := [.all_required_answered, .step_limit_reached] }

/-- INTERVIEW_TYPES lookup: INTERVIEW_TYPES[type] or null. -/
def getInterviewType (t : String) : Option InterviewDefinition :=
  if t = "general" then some GeneralInterviewType
  else if t = "tenant-screening" then some TenantScreeningInterviewType
  else if t = "customer-onboarding" then some CustomerOnboardingInterviewType
  else if t = "maintenance-request" then some MaintenanceRequestInterviewType
  else none

/-! ## Interview engine (delta-returning variant of interview-engine.ts) -/

namespace InterviewEngine

/-- Outcome of the private validateResponse helper. -/
inductive ValidationResult where
  | valid
  | invalid (error : String)
deriving DecidableEq, Repr

/-- An empty submission in the sense of the guard
response === null, response === undefined or response === the empty string. -/
def isEmptySubmission (v : JSValue) : Bool :=
  match v with
  | .null => true
  | .undefined => true
  | .str s => s = ""
  | _ => false

/-- Membership test of the yes_no literal list with === semantics. -/
def yesNoOk (v : JSValue) : Bool :=
  match v with
  | .str s => s = "yes" || s = "no" || s = "true" || s = "false"
  | .bool _ => true
  | _ => false

/-- options.includes(v) under ===: only a string can equal a string option. -/
def optionsInclude (opts : List String) (v : JSValue) : Bool :=
  match v with
  | .str s => opts.contains s
  | _ => false

def validateResponse (question : Question) (response : JSValue) : ValidationResult :=
  if question.required && isEmptySubmission response then
    .invalid "Response is required for this question"
  else if !question.required && isEmptySubmission response then
    .valid
  else
    match question.type with
    | .text =>
        match response with
        | .str _ => .valid
        | _ => .invalid "Response must be text"
    | .number =>
        if (match response with | .num _ => true | _ => false) || (jsToNumber response).isSome then
          .valid
        else
          .invalid "Response must be a number"
    | .yes_no =>
        if yesNoOk response then .valid
        else .invalid "Response must be yes/no or true/false"
    | .scale =>
        if (jsToNumber response).isNone then
          .invalid "Scale response must be a number"
        else
          match question.options with
          | some opts =>
              if opts.contains (String.mk (jsToString response)) then .valid
              else .invalid ("Response must be one of: " ++ String.intercalate ", " opts)
          | none => .valid
    | .multiple_choice =>
        match question.options with
        | some opts =>
            if optionsInclude opts response then .valid
            else .invalid ("Response must be one of: " ++ String.intercalate ", " opts)
        | none => .valid
    | .multiple_select =>
        match response with
        | .arr xs =>
            match question.options with
            | some opts =>
                let invalidOptions := xs.filter (fun r => !optionsInclude opts r)
                if invalidOptions.length > 0 then
                  .invalid ("Invalid options: " ++
                    String.intercalate ", " (invalidOptions.map (fun r => String.mk (jsToString r))))
                else .valid
            | none => .valid
        | _ => .invalid "Multiple select response must be an array"
    | .date =>
        if jsDateValid response then .valid
        else .invalid "Response must be a valid date"

def getNextQuestion (session : InterviewSession) : Except String (Option Question) :=
  match getInterviewType session.interviewType with
  | none => .error ("Invalid interview type: " ++ session.interviewType)
  | some interviewType =>
      if session.currentStep ≥ interviewType.maxSteps then
        .ok none
      else
        -- question or null: an out-of-range index yields null
        .ok (interviewType.questions.get? session.currentStep)

/-- The effective step of a stored response: metadata step with -1
standing in for a missing value (the code reads metadata step with
optional chaining and a -1 default). -/
def effStep (r : ResponseData) : Int :=
  ((r.metadata.bind RespMeta.step).getD (-1))

def effStepO : Option ResponseData → Int
  | some r => effStep r
  | none => -1

/-- Reduce over Object.values of responses selecting the response whose
recorded step is strictly greatest, first occurrence winning ties. -/
def lastByStep (rs : List ResponseData) : Option ResponseData :=
  rs.foldl (fun latest r => if effStep r > effStepO latest then some r else latest) none

/-- The fixed alternation of done phrases in the engine completion check,
with both spellings of the optional apostrophe branch. -/
def donePhrases : List (List Char) :=
  [ "done".data
  , "finished".data
  , "that".data ++ [apos] ++ "s all".data
  , "thats all".data
  , "no more".data
  , "that covers it".data
  , "nothing else".data ]

/-- The user_indicated_done arm: find the most recent response by stored
step, require a string, and gate the word-bounded phrase test on a trimmed
length of at most 50 characters. -/
def userDoneHolds (session : InterviewSession) : Bool :=
  match lastByStep (session.responses.map Prod.snd) with
  | none => false
  | some lastResponse =>
      match lastResponse.response with
      | .str s =>
          let text := lowerChars (jsTrim s.data)
          text.length ≤ 50 && testWB donePhrases text
      | _ => false

/-- One arm of the completion criteria switch. -/
def criterionHolds (interviewType : InterviewDefinition) (session : InterviewSession) :
    CompletionRule → Bool
  | .step_limit_reached => session.currentStep ≥ interviewType.maxSteps
  | .all_required_answered =>
      let requiredQuestions := (interviewType.questions.filter Question.required).map Question.id
      let answeredQuestions := session.responses.map Prod.fst
      requiredQuestions.all (fun qId => answeredQuestions.contains qId) &&
        session.currentStep ≥ interviewType.questions.length
  | .user_indicated_done => userDoneHolds session
  | .timeout_rule => false

/-- The completion loop after type resolution: return true on the first
criterion that triggers, false when none does. -/
def checkCompletionDef (interviewType : InterviewDefinition) (session : InterviewSession) : Bool :=
  interviewType.completionCriteria.any (criterionHolds interviewType session)

def checkCompletion (session : InterviewSession) : Bool :=
  match getInterviewType session.interviewType with
  | none => false
  | some interviewType => checkCompletionDef interviewType session

/-- The ResponseData built for a validated answer, with denormalised
question metadata and the current step.  The code stores the ISO string of
the clock instant; the model keeps the instant itself. -/
def mkResponseData (question : Question) (response : JSValue) (step : Nat) (now : Int) :
    ResponseData :=
  { response := response
    metadata := some
      { questionId := question.id
        questionText := question.text
        questionType := some question.type
        step := some (Int.ofNat step) }
    timestamp := now }

/-- The projected next state processResponse evaluates completion against:
the input session with the answer recorded, the step advanced and the
clock written. -/
def projectedSession (session : InterviewSession) (response : JSValue) (now : Int)
    (currentQuestion : Question) : InterviewSession :=
  { session with
      responses := recordSet session.responses currentQuestion.id
        (mkResponseData currentQuestion response session.currentStep now)
      currentStep := session.currentStep + 1
      updatedAt := now }

/-- processResponse of the delta-returning engine.  The clock is passed
explicitly; a thrown Error is an .error result and a returned object an
.ok result. -/
def processResponse (session : InterviewSession) (response : JSValue) (now : Int) :
    Except String ProcessResult :=
  match getInterviewType session.interviewType with
  | none => .error ("Invalid interview type: " ++ session.interviewType)
  | some interviewType =>
      match interviewType.questions.get? session.currentStep with
      | none =>
          .ok { success := false, nextQuestion := none, completed := false,
                error := some "No current question found", updates := none }
      | some currentQuestion =>
          match validateResponse currentQuestion response with
          | .invalid e =>
              .ok { success := false, nextQuestion := none, completed := false,
                    error := some e, updates := none }
          | .valid =>
              let responseData := mkResponseData currentQuestion response session.currentStep now
              let newResponses := recordSet session.responses currentQuestion.id responseData
              let newStep := session.currentStep + 1
              let projected : InterviewSession :=
                { session with
                    responses := newResponses
                    currentStep := newStep
                    updatedAt := now }
              let completed := checkCompletion projected
              let projectedFinal :=
                if completed then
                  { projected with status := .completed, completedAt := some now }
                else projected
              -- type resolution cannot fail on the projection: the
              -- interviewType string is unchanged
              let nextQuestion :=
                if completed then none
                else
                  match getNextQuestion projectedFinal with
                  | .ok q => q
                  | .error _ => none
              .ok { success := true
                    nextQuestion := nextQuestion
                    completed := completed
                    error := none
                    updates := some
                      { currentStep := newStep
                        responses := newResponses
                        updatedAt := now
                        status := if completed then .completed else session.status
                        completedAt := if completed then some now else none } }

end InterviewEngine

/-! ## Analyzer (src/core/analysis/analyzer.ts) -/

structure Recommendation where
  title : String
  rationale : String
  nextSteps : List String
  priority : Option String := none
  agentToExecute : Option String := none

structure AnalysisResult where
  completionTime : Int
  responseCount : Nat
  completionRate : ℚ
  insights : List String
  score : Int
  recommendations : List Recommendation

namespace Analyzer

/-- completedAt minus createdAt in milliseconds, 0 when completedAt is
absent (a Date object is always truthy, so only the optional completedAt
can zero the guard). -/
def completionTimeOf (session : InterviewSession) : Int :=
  match session.completedAt with
  | some t => t - session.createdAt
  | none => 0

/-- Quality points for one stored response: 2 for a truthy value with
non-blank string form, plus 1 for a string longer than 20 characters,
plus 1 for an array with more than one element. -/
def isLongString (v : JSValue) : Bool :=
  match v with
  | .str s => s.length > 20
  | _ => false

def isMultiArray (v : JSValue) : Bool :=
  match v with
  | .arr xs => xs.length > 1
  | _ => false

def qualityPointsOf (r : ResponseData) : Nat :=
  (if jsTruthy r.response && (jsTrim (jsToString r.response)).length > 0 then 2 else 0) +
  (if isLongString r.response then 1 else 0) +
  (if isMultiArray r.response then 1 else 0)

/-- calculateQualityScore: points over the 3-per-response maximum, scaled
to 30 and capped. -/
def calculateQualityScore (session : InterviewSession) : ℚ :=
  let totalResponses := session.responses.length
  let qualityPoints := (session.responses.map (fun kv => qualityPointsOf kv.2)).sum
  let maxPossiblePoints := totalResponses * 3
  if maxPossiblePoints > 0 then
    min (((qualityPoints : ℚ) / (maxPossiblePoints : ℚ)) * 30) 30
  else 0

/-- calculateTimeScore with its branch ladder on minutes. -/
def calculateTimeScore (session : InterviewSession) : ℚ :=
  let completionTime := completionTimeOf session
  if completionTime = 0 then 15
  else
    let minutes : ℚ := (completionTime : ℚ) / (1000 * 60)
    if 5 ≤ minutes ∧ minutes ≤ 15 then 30
    else if minutes < 5 then max 10 (30 - (5 - minutes) * 4)
    else if minutes > 15 then max 10 (30 - (minutes - 15) * 2)
    else 15

/-- The completeness component: responses over maxSteps, scaled to 40 and
capped. -/
def completenessScore (interviewType : InterviewDefinition) (session : InterviewSession) : ℚ :=
  min (((session.responses.length : ℚ) / (interviewType.maxSteps : ℚ)) * 40) 40

def calculateScore (session : InterviewSession) : Int :=
  match getInterviewType session.interviewType with
  | none => 0
  | some interviewType =>
      let score := completenessScore interviewType session +
        calculateQualityScore session + calculateTimeScore session
      jsRound (min score 100)

def extractTenantScreeningInsights (session : InterviewSession) : List String :=
  let responses := session.responses
  (match recordGet responses "employment_status" with
   | some r =>
       match r.response with
       | .str employment =>
           if employment = "Employed full-time" then ["Stable employment status"]
           else if employment = "Self-employed" then
             ["Self-employed - may require additional income verification"]
           else []
       | _ => []
   | none => []) ++
  (match recordGet responses "monthly_income" with
   | some r =>
       match jsToNumber r.response with
       | some income =>
           if income > 5000 then ["Strong financial profile"]
           else if income < 2000 then ["May need additional financial documentation"]
           else []
       | none => []
   | none => []) ++
  (match recordGet responses "rental_history" with
   | some r =>
       let history := lowerChars (jsToString r.response)
       if listContains history "no".data || listContains history "first time".data then
         ["First-time renter - may need additional references"]
       else []
   | none => [])

def extractMaintenanceInsights (session : InterviewSession) : List String :=
  let responses := session.responses
  (match recordGet responses "urgency_level" with
   | some r =>
       match r.response with
       | .str urgency =>
           if urgency = "Emergency (immediate)" then
             ["Emergency request - immediate attention required"]
           else if urgency = "Urgent (within 24 hours)" then
             ["Urgent request - prioritize scheduling"]
           else []
       | _ => []
   | none => []) ++
  (match recordGet responses "issue_category" with
   | some r =>
       let category := String.mk (jsToString r.response)
       [category ++ " maintenance request identified"] ++
         (match r.response with
          | .str c =>
              if c = "Plumbing" || c = "Electrical" then
                ["May require specialized technician"]
              else []
          | _ => [])
   | none => [])

def extractOnboardingInsights (session : InterviewSession) : List String :=
  let responses := session.responses
  (match recordGet responses "urgency" with
   | some r =>
       match jsToNumber r.response with
       | some urgencyScore => if urgencyScore ≥ 4 then ["High urgency customer - prioritize follow-up"] else []
       | none => []
   | none => []) ++
  (match recordGet responses "welcome" with
   | some r =>
       -- the code lowercases the raw value, which the shipped flow
       -- guarantees to be a string
       ["Acquired via " ++ String.mk (lowerChars (jsToString r.response))]
   | none => []) ++
  (match recordGet responses "budget_range" with
   | some r =>
       match r.response with
       | .str budget =>
           if budget = "Over $5000" then ["High-value customer prospect"]
           else if budget = "Not sure" then ["May need budget discussion and guidance"]
           else []
       | _ => []
   | none => [])

def extractGeneralInsights (session : InterviewSession) : List String :=
  let responses := session.responses
  (match recordGet responses "experience" with
   | some r =>
       match jsToNumber r.response with
       | some experienceLevel =>
           if experienceLevel ≤ 2 then
             ["New to this type of interaction - may need additional guidance"]
           else if experienceLevel ≥ 4 then
             ["Experienced user - can handle advanced topics"]
           else []
       | none => []
   | none => []) ++
  (match recordGet responses "goals" with
   | some r =>
       if (jsToString r.response).length > 50 then ["Clear and detailed goals provided"]
       else []
   | none => [])

def extractInsights (session : InterviewSession) : List String :=
  match getInterviewType session.interviewType with
  | none => []
  | some interviewType =>
      let responseCount := session.responses.length
      let completionTime := completionTimeOf session
      let countInsight :=
        if responseCount = interviewType.maxSteps then
          ["Completed all interview questions"]
        else
          ["Completed " ++ toString responseCount ++ " of " ++
            toString interviewType.maxSteps ++ " questions"]
      let timeInsight :=
        if completionTime > 0 then
          let minutes := jsRound ((completionTime : ℚ) / (1000 * 60))
          if minutes < 5 then ["Completed interview quickly, indicating clear objectives"]
          else if minutes > 30 then ["Took considerable time, suggesting thoughtful consideration"]
          else ["Completed interview at a normal pace"]
        else []
      let typeInsights :=
        if session.interviewType = "tenant-screening" then
          extractTenantScreeningInsights session
        else if session.interviewType = "maintenance-request" then
          extractMaintenanceInsights session
        else if session.interviewType = "customer-onboarding" then
          extractOnboardingInsights session
        else if session.interviewType = "general" then
          extractGeneralInsights session
        else []
      countInsight ++ timeInsight ++ typeInsights

def generateRecommendationsOf (session : InterviewSession) : List Recommendation :=
  if session.interviewType = "tenant-screening" then
    [ { title := "Review Application"
        rationale := "Complete tenant screening interview ready for review"
        nextSteps := ["Verify employment information", "Check references",
                      "Review financial documents"]
        priority := some "high" } ]
  else if session.interviewType = "maintenance-request" then
    let insights := extractInsights session
    let urgencyInsight := insights.find? (fun i =>
      listContains i.data "Emergency".data || listContains i.data "Urgent".data)
    let priority := if urgencyInsight.isSome then "high" else "medium"
    [ { title := "Schedule Maintenance"
        rationale := "Maintenance request details collected and categorized"
        nextSteps := ["Assign appropriate technician", "Schedule access time",
                      "Prepare required tools/parts"]
        priority := some priority
        agentToExecute := some "Agent Smith" } ]
  else if session.interviewType = "customer-onboarding" then
    [ { title := "Follow-up Contact"
        rationale := "Customer onboarding information collected"
        nextSteps := ["Prepare service proposal", "Schedule follow-up call",
                      "Send welcome materials"]
        priority := some "medium" } ]
  else if session.interviewType = "general" then
    [ { title := "Process Context"
        rationale := "General context gathering completed successfully"
        nextSteps := ["Review responses for key themes", "Identify next best action",
                      "Schedule appropriate follow-up"]
        priority := some "medium" } ]
  else []

/-- generateAnalysis: refuse any session that is not completed, otherwise
assemble the result record. -/
def generateAnalysis (session : InterviewSession) : Except String AnalysisResult :=
  if session.status ≠ SStatus.completed then
    .error ("Cannot analyze incomplete session: " ++ session.id)
  else
    .ok { completionTime := completionTimeOf session
          responseCount := session.responses.length
          completionRate := 1
          insights := extractInsights session
          score := calculateScore session
          recommendations := generateRecommendationsOf session }

end Analyzer

/-! ## Adaptive interview workflow (src/workflows/interview-workflow.ts) -/

inductive Phase where
  | prime
  | interview
  | synthesize
  | recommend
  | complete
deriving DecidableEq, Repr

structure Exchange where
  question : String
  answer : String
deriving DecidableEq, Repr

structure InterviewState where
  phase : Phase
  domain : String
  objective : String
  constraints : Option String
  exchanges : List Exchange
  contextDocument : Option JSValue
  recommendations : Option JSValue
  userResponse : Option String
  awaitingResponse : Bool

/-- The editContext signal handler: store the payload, and clear the
response wait only while the synthesize phase is reviewing the context. -/
def handleEditContext (state : InterviewState) (editedContext : JSValue) : InterviewState :=
  let state1 := { state with contextDocument := some editedContext }
  if state1.phase = Phase.synthesize then
    { state1 with awaitingResponse := false }
  else
    state1

/-- const maxQuestions = 20. -/
def maxQuestions : Nat := 20

/-- The interview-phase while loop.  genQ models the generateQuestion
activity, respond the signalled user response of each wait (none models
the 24 hour timeout, the empty string a cleared-but-empty response), and
proc the complete flag of the processResponse activity.  Errors thrown by
the loop surface as .error. -/
def interviewLoop (genQ : List Exchange → String) (respond : Nat → Option String)
    (proc : String → String → List Exchange → Bool)
    (exchanges : List Exchange) (questionCount : Nat) (interviewComplete : Bool) :
    Except String (List Exchange × Nat) :=
  if _h : interviewComplete = false ∧ questionCount < maxQuestions then
    let question := genQ exchanges
    match respond questionCount with
    | none => .error "Interview timeout - no response received within 24 hours"
    | some answer =>
        if answer = "" then .error "Interview response was empty"
        else
          interviewLoop genQ respond proc
            (exchanges ++ [{ question := question, answer := answer }])
            (questionCount + 1)
            (proc question answer exchanges)
  else
    .ok (exchanges, questionCount)
termination_by maxQuestions - questionCount
decreasing_by
  simp_wf
  omega

/-- Phase 2 of the workflow as entered from the prime phase: run the loop
from an empty exchange list and advance the phase to synthesize on normal
exit. -/
def runInterviewPhase (genQ : List Exchange → String) (respond : Nat → Option String)
    (proc : String → String → List Exchange → Bool) :
    Except String (List Exchange × Nat × Phase) :=
  match interviewLoop genQ respond proc [] 0 false with
  | .error e => .error e
  | .ok (exchanges, n) => .ok (exchanges, n, Phase.synthesize)

/-- Iteration count of a finished interview phase (0 for an aborted one). -/
def phaseCount : Except String (List Exchange × Nat × Phase) → Nat
  | .ok (_, n, _) => n
  | .error _ => 0

/-- Exchange-list length of a finished interview phase. -/
def phaseExchanges : Except String (List Exchange × Nat × Phase) → Nat
  | .ok (exchanges, _, _) => exchanges.length
  | .error _ => 0

/-! ## Completion-check activity variants (activities process-response) -/

structure ProcessResponseResult where
  complete : Bool
  reason : Option String
deriving DecidableEq, Repr

/-- The done-phrase alternation of the regex activity variant, with both
spellings of each optional apostrophe branch. -/
def activityDonePhrases : List (List Char) :=
  [ "done".data
  , "finished".data
  , "that".data ++ [apos] ++ "s all".data
  , "thats all".data
  , "no more".data
  , "that covers it".data
  , "nothing else".data
  , "that".data ++ [apos] ++ "s it".data
  , "thats it".data
  , "i".data ++ [apos] ++ "m good".data
  , "im good".data
  , "all set".data ]

/-- The standalone negatives of the regex activity variant. -/
def negativePhrases : List (List Char) :=
  [ "no".data, "nope".data, "no thanks".data, "not really".data,
    "nothing".data, "none".data ]

/-- Anchored match of the negatives regex: the whole string is one of the
negatives, with an optional trailing period. -/
def negativeMatch (t : List Char) : Bool :=
  negativePhrases.any fun p => t = p || t = p ++ ".".data

/-- The regex-gated activity variant: max-cap check first, then the
word-bounded done phrases on short trimmed answers after 2 prior
exchanges, then anchored standalone negatives on answers of at most 30
characters after 4 prior exchanges. -/
def processResponseRegexVariant (answer : String) (exchanges : List Exchange) :
    ProcessResponseResult :=
  let totalExchanges := exchanges.length + 1
  let answerTrimmed := jsTrim answer.data
  let answerLower := lowerChars answerTrimmed
  if totalExchanges ≥ 20 then
    { complete := true, reason := some "Maximum questions reached" }
  else if answerTrimmed.length ≤ 80 && totalExchanges ≥ 3 &&
      testWB activityDonePhrases answerLower then
    { complete := true, reason := some "User indicated completion" }
  else if totalExchanges ≥ 5 && answerTrimmed.length ≤ 30 &&
      negativeMatch answerLower then
    { complete := true, reason := some "Sufficient context gathered" }
  else
    { complete := false, reason := none }

/-- userDone test of the substring activity variant: the lowercased raw
answer contains one of three done phrases. -/
def substrUserDone (answer : String) : Bool :=
  let answerLower := lowerChars answer.data
  listContains answerLower ("that".data ++ [apos] ++ "s all".data) ||
  listContains answerLower "nothing else".data ||
  listContains answerLower "that covers it".data

/-- The substring activity variant: done phrases by plain containment
after 2 prior exchanges, then any occurrence of the substring no after 4
prior exchanges, then the max cap. -/
def processResponseSubstrVariant (answer : String) (exchanges : List Exchange) :
    ProcessResponseResult :=
  let totalExchanges := exchanges.length + 1
  let answerLower := lowerChars answer.data
  if substrUserDone answer && totalExchanges ≥ 3 then
    { complete := true, reason := some "User indicated completion" }
  else if totalExchanges ≥ 5 && listContains answerLower "no".data then
    { complete := true, reason := some "Sufficient context gathered" }
  else if totalExchanges ≥ 20 then
    { complete := true, reason := some "Maximum questions reached" }
  else
    { complete := false, reason := none }

/-! ## Sample data used by witnesses -/

/-- A bare general session at the given step with no responses. -/
def gSession (step : Nat) : InterviewSession :=
  { id := "s", userId := "u", interviewType := "general", status := .active,
    currentStep := step, responses := [], contextData := [],
    createdAt := 0, updatedAt := 0 }

/-- A session whose interview type does not resolve. -/
def badSession : InterviewSession :=
  { id := "s", userId := "u", interviewType := "bad", status := .active,
    currentStep := 0, responses := [], contextData := [],
    createdAt := 0, updatedAt := 0 }

/-- The first general question. -/
def purposeQuestion : Question :=
  { id := "purpose", text := "What brings you here today?", type := .text, required := true }

/-- A bespoke definition declaring the user_indicated_done criterion
(none of the four shipped archetypes does). -/
def doneDef : InterviewDefinition :=
  { type := "custom", maxSteps := 3, description := "",
    questions := [], completionCriteria := [.user_indicated_done] }

/-- A session holding one short done-signal response. -/
def doneSession : InterviewSession :=
  { id := "s", userId := "u", interviewType := "custom", status := .active,
    currentStep := 1,
    responses := [("q1",
      { response := .str "Done",
        metadata := some { questionId := "q1", questionText := "", questionType := some .text,
                           step := some 0 },
        timestamp := 0 })],
    contextData := [], createdAt := 0, updatedAt := 0 }

/-- A completed general session with timestamps ten minutes apart. -/
def cSession : InterviewSession :=
  { id := "c", userId := "u", interviewType := "general", status := .completed,
    currentStep := 5,
    responses := [("purpose", { response := .str "help", metadata := none, timestamp := 0 })],
    contextData := [], createdAt := 0, updatedAt := 600000, completedAt := some 600000 }

/-- Four prior exchanges, so a fifth answer arrives with totalExchanges 5. -/
def ex4 : List Exchange := List.replicate 4 { question := "q", answer := "a" }

/-! ## Registry facts -/

lemma registry_cases (t : String) (d : InterviewDefinition)
    (hd : getInterviewType t = some d) :
    d = GeneralInterviewType ∨ d = TenantScreeningInterviewType ∨
    d = CustomerOnboardingInterviewType ∨ d = MaintenanceRequestInterviewType := by
  unfold getInterviewType at hd
  split_ifs at hd <;> simp_all

lemma registry_questions_length (t : String) (d : InterviewDefinition)
    (hd : getInterviewType t = some d) :
    d.questions.length = d.maxSteps := by
  rcases registry_cases t d hd with h | h | h | h <;> subst h <;> rfl

lemma registry_step_limit (t : String) (d : InterviewDefinition)
    (hd : getInterviewType t = some d) :
    CompletionRule.step_limit_reached ∈ d.completionCriteria := by
  rcases registry_cases t d hd with h | h | h | h <;> subst h <;> decide

/-! ## Claim theorems -/

/-- C3: for every session resolving to a shipped archetype,
checkCompletion returns true whenever currentStep equals the archetype
maxSteps, for every content of the responses mapping. -/
theorem checkCompletion_at_step_limit (s : InterviewSession) (d : InterviewDefinition)
    (hd : getInterviewType s.interviewType = some d)
    (hstep : s.currentStep = d.maxSteps) :
    InterviewEngine.checkCompletion s = true := by
  have hmem := registry_step_limit _ _ hd
  unfold InterviewEngine.checkCompletion
  simp only [hd]
  unfold InterviewEngine.checkCompletionDef
  refine List.any_eq_true.mpr ⟨_, hmem, ?_⟩
  simp [InterviewEngine.criterionHolds, hstep]

/-- Witness for C3: a general session at step 5 with an empty responses
mapping is complete. -/
theorem checkCompletion_at_step_limit_witness :
    InterviewEngine.checkCompletion (gSession 5) = true ∧ (gSession 5).responses = [] :=
  ⟨checkCompletion_at_step_limit (gSession 5) GeneralInterviewType rfl rfl, rfl⟩

/-- C9: when the interview type resolves, getNextQuestion yields null
exactly when currentStep has reached maxSteps and otherwise yields the
question stored at index currentStep; an unresolvable type throws the
invalid-interview-type error. -/
theorem getNextQuestion_spec (s : InterviewSession) :
    (∀ d, getInterviewType s.interviewType = some d →
      ((InterviewEngine.getNextQuestion s = .ok none ↔ d.maxSteps ≤ s.currentStep) ∧
       (s.currentStep < d.maxSteps →
         ∃ q, d.questions.get? s.currentStep = some q ∧
           InterviewEngine.getNextQuestion s = .ok (some q)))) ∧
    (getInterviewType s.interviewType = none →
      InterviewEngine.getNextQuestion s = .error ("Invalid interview type: " ++ s.interviewType)) := by
  constructor
  · intro d hd
    have hlen := registry_questions_length _ _ hd
    unfold InterviewEngine.getNextQuestion
    simp only [hd]
    by_cases h : s.currentStep ≥ d.maxSteps
    · rw [if_pos h]
      exact ⟨by simpa using h, fun hlt => absurd h (by omega)⟩
    · rw [if_neg h]
      have hlt : s.currentStep < d.questions.length := by omega
      have hq : d.questions.get? s.currentStep = some (d.questions.get ⟨s.currentStep, hlt⟩) :=
        List.get?_eq_get hlt
      constructor
      · rw [hq]
        simp only [Except.ok.injEq]
        constructor
        · intro hcontr; exact absurd hcontr (by simp)
        · intro hle; omega
      · intro _
        exact ⟨_, hq, by rw [hq]⟩
  · intro hn
    unfold InterviewEngine.getNextQuestion
    simp only [hn]

/-- Witness for C9: a fresh general session gets the first question; a
session of invalid type fails. -/
theorem getNextQuestion_spec_witness :
    (∃ q, GeneralInterviewType.questions.get? 0 = some q ∧
      InterviewEngine.getNextQuestion (gSession 0) = .ok (some q)) ∧
    InterviewEngine.getNextQuestion badSession = .error "Invalid interview type: bad" :=
  ⟨((getNextQuestion_spec (gSession 0)).1 GeneralInterviewType rfl).2 (by decide),
   (getNextQuestion_spec badSession).2 rfl⟩

/-- C4: with a resolvable type and a current question, a response that
fails validation produces a structured failure result (no thrown error)
carrying the validation message and no session updates, so the step does
not advance and nothing is recorded. -/
theorem processResponse_invalid_spec (s : InterviewSession) (v : JSValue) (now : Int)
    (d : InterviewDefinition) (q : Question) (e : String)
    (hd : getInterviewType s.interviewType = some d)
    (hq : d.questions.get? s.currentStep = some q)
    (hv : InterviewEngine.validateResponse q v = .invalid e) :
    InterviewEngine.processResponse s v now =
      .ok { success := false, nextQuestion := none, completed := false,
            error := some e, updates := none } := by
  unfold InterviewEngine.processResponse
  simp only [hd, hq, hv]

/-- Witness for C4: the empty string on the first (required) general
question is rejected with the required-response message. -/
theorem processResponse_invalid_spec_witness :
    InterviewEngine.processResponse (gSession 0) (.str "") 7 =
      .ok { success := false, nextQuestion := none, completed := false,
            error := some "Response is required for this question", updates := none } :=
  processResponse_invalid_spec (gSession 0) (.str "") 7 GeneralInterviewType
    purposeQuestion "Response is required for this question" rfl rfl rfl

/-- C1: on a valid response, processResponse succeeds and returns a delta
of changed fields; the step is incremented, the responses mapping is
extended with the new denormalised answer, updatedAt takes the clock, and
status and completedAt are set exactly when the projected state passes
checkCompletion.  The embedding is pure: the function only reads the
session argument and emits the delta. -/
theorem processResponse_success_delta (s : InterviewSession) (v : JSValue) (now : Int)
    (d : InterviewDefinition) (q : Question)
    (hd : getInterviewType s.interviewType = some d)
    (hq : d.questions.get? s.currentStep = some q)
    (hv : InterviewEngine.validateResponse q v = .valid) :
    ∃ res : ProcessResult,
      InterviewEngine.processResponse s v now = .ok res ∧
      res.success = true ∧
      res.error = none ∧
      res.completed = InterviewEngine.checkCompletion (InterviewEngine.projectedSession s v now q) ∧
      res.updates = some
        { currentStep := s.currentStep + 1
          responses := recordSet s.responses q.id
            (InterviewEngine.mkResponseData q v s.currentStep now)
          updatedAt := now
          status :=
            if InterviewEngine.checkCompletion (InterviewEngine.projectedSession s v now q)
            then .completed else s.status
          completedAt :=
            if InterviewEngine.checkCompletion (InterviewEngine.projectedSession s v now q)
            then some now else none } ∧
      (res.completed = true → res.nextQuestion = none) := by
  unfold InterviewEngine.processResponse
  simp only [hd, hq, hv]
  refine ⟨_, rfl, rfl, rfl, rfl, rfl, ?_⟩
  intro hc
  simp only [InterviewEngine.projectedSession] at hc ⊢
  simp [hc]

/-- Witness for C1: answering the first general question with text
succeeds and yields the expected delta. -/
theorem processResponse_success_delta_witness :
    ∃ res : ProcessResult,
      InterviewEngine.processResponse (gSession 0) (.str "hello there") 7 = .ok res ∧
      res.success = true ∧
      res.error = none ∧
      res.completed = InterviewEngine.checkCompletion
        (InterviewEngine.projectedSession (gSession 0) (.str "hello there") 7 purposeQuestion) ∧
      res.updates = some
        { currentStep := 1
          responses := recordSet (gSession 0).responses purposeQuestion.id
            (InterviewEngine.mkResponseData purposeQuestion (.str "hello there") 0 7)
          updatedAt := 7
          status :=
            if InterviewEngine.checkCompletion
              (InterviewEngine.projectedSession (gSession 0) (.str "hello there") 7 purposeQuestion)
            then .completed else (gSession 0).status
          completedAt :=
            if InterviewEngine.checkCompletion
              (InterviewEngine.projectedSession (gSession 0) (.str "hello there") 7 purposeQuestion)
            then some 7 else none } ∧
      (res.completed = true → res.nextQuestion = none) :=
  processResponse_success_delta (gSession 0) (.str "hello there") 7 GeneralInterviewType
    purposeQuestion rfl rfl rfl

/-- C6: the editContext signal handler always stores the payload in
contextDocument; it clears awaitingResponse only in the synthesize phase
and in every other phase leaves every field except contextDocument
unchanged. -/
theorem editContext_frame (st : InterviewState) (payload : JSValue) :
    (handleEditContext st payload).contextDocument = some payload ∧
    (st.phase = Phase.synthesize → (handleEditContext st payload).awaitingResponse = false) ∧
    (st.phase ≠ Phase.synthesize →
      (handleEditContext st payload).awaitingResponse = st.awaitingResponse) ∧
    (handleEditContext st payload).phase = st.phase ∧
    (handleEditContext st payload).exchanges = st.exchanges ∧
    (handleEditContext st payload).userResponse = st.userResponse ∧
    (handleEditContext st payload).domain = st.domain ∧
    (handleEditContext st payload).objective = st.objective ∧
    (handleEditContext st payload).constraints = st.constraints ∧
    (handleEditContext st payload).recommendations = st.recommendations := by
  unfold handleEditContext
  by_cases h : st.phase = Phase.synthesize <;> simp [h]

/-- Witness for C6: during the interview phase an edit keeps the wait
flag; during synthesize it clears it. -/
theorem editContext_frame_witness :
    (handleEditContext
      { phase := .interview, domain := "d", objective := "o", constraints := none,
        exchanges := [], contextDocument := none, recommendations := none,
        userResponse := none, awaitingResponse := true } .null).awaitingResponse = true ∧
    (handleEditContext
      { phase := .interview, domain := "d", objective := "o", constraints := none,
        exchanges := [], contextDocument := none, recommendations := none,
        userResponse := none, awaitingResponse := true } .null).contextDocument = some .null ∧
    (handleEditContext
      { phase := .synthesize, domain := "d", objective := "o", constraints := none,
        exchanges := [], contextDocument := none, recommendations := none,
        userResponse := none, awaitingResponse := true } .null).awaitingResponse = false :=
  ⟨(editContext_frame
      { phase := .interview, domain := "d", objective := "o", constraints := none,
        exchanges := [], contextDocument := none, recommendations := none,
        userResponse := none, awaitingResponse := true } .null).2.2.1 (by decide),
   (editContext_frame
      { phase := .interview, domain := "d", objective := "o", constraints := none,
        exchanges := [], contextDocument := none, recommendations := none,
        userResponse := none, awaitingResponse := true } .null).1,
   (editContext_frame
      { phase := .synthesize, domain := "d", objective := "o", constraints := none,
        exchanges := [], contextDocument := none, recommendations := none,
        userResponse := none, awaitingResponse := true } .null).2.1 rfl⟩

/-- C2: for any definition declaring the user_indicated_done criterion,
that criterion triggers exactly when the most recent response by stored
step metadata is a string whose trimmed form is at most 50 characters and
matches one of the word-bounded done phrases after lowercasing; every
trigger makes checkCompletion of that definition true. -/
theorem userIndicatedDone_spec (d : InterviewDefinition) (s : InterviewSession)
    (hmem : CompletionRule.user_indicated_done ∈ d.completionCriteria) :
    (InterviewEngine.criterionHolds d s CompletionRule.user_indicated_done = true ↔
      ∃ r str, InterviewEngine.lastByStep (s.responses.map Prod.snd) = some r ∧
        r.response = JSValue.str str ∧
        (jsTrim str.data).length ≤ 50 ∧
        testWB InterviewEngine.donePhrases (lowerChars (jsTrim str.data)) = true) ∧
    (InterviewEngine.criterionHolds d s CompletionRule.user_indicated_done = true →
      InterviewEngine.checkCompletionDef d s = true) := by
  have hbr : InterviewEngine.criterionHolds d s CompletionRule.user_indicated_done =
      InterviewEngine.userDoneHolds s := rfl
  constructor
  · rw [hbr]
    unfold InterviewEngine.userDoneHolds
    cases h : InterviewEngine.lastByStep (s.responses.map Prod.snd) with
    | none =>
        constructor
        · intro hfalse; exact Bool.noConfusion hfalse
        · rintro ⟨r, str0, hsome, -⟩
          exact Option.noConfusion hsome
    | some r =>
        constructor
        · intro htrue
          rcases hresp : r.response with s0 | q0 | b0 | - | - | xs
          · simp only [hresp] at htrue
            rw [Bool.and_eq_true] at htrue
            obtain ⟨h1, h2⟩ := htrue
            refine ⟨r, s0, rfl, hresp, ?_, h2⟩
            have hlen := of_decide_eq_true h1
            simpa [lowerChars] using hlen
          all_goals simp only [hresp] at htrue
          all_goals exact Bool.noConfusion htrue
        · rintro ⟨r', str0, hsome, hresp, hlen, htest⟩
          simp only [h, Option.some.injEq] at hsome
          subst hsome
          simp only [hresp]
          rw [Bool.and_eq_true]
          exact ⟨decide_eq_true (by simpa [lowerChars] using hlen), htest⟩
  · intro hdone
    unfold InterviewEngine.checkCompletionDef
    exact List.any_eq_true.mpr ⟨_, hmem, hdone⟩

/-- Witness for C2: the bespoke definition and a session answering Done. -/
theorem userIndicatedDone_spec_witness :
    (InterviewEngine.criterionHolds doneDef doneSession CompletionRule.user_indicated_done = true ↔
      ∃ r str, InterviewEngine.lastByStep (doneSession.responses.map Prod.snd) = some r ∧
        r.response = JSValue.str str ∧
        (jsTrim str.data).length ≤ 50 ∧
        testWB InterviewEngine.donePhrases (lowerChars (jsTrim str.data)) = true) ∧
    (InterviewEngine.criterionHolds doneDef doneSession CompletionRule.user_indicated_done = true →
      InterviewEngine.checkCompletionDef doneDef doneSession = true) :=
  userIndicatedDone_spec doneDef doneSession (by decide)

/-- Any normal exit of the interview loop starting at count qc keeps the
count at most maxQuestions (when started within the cap), never decreases
it, and appends exactly the counted number of exchanges. -/
lemma interviewLoop_ok_inv (genQ : List Exchange → String) (respond : Nat → Option String)
    (proc : String → String → List Exchange → Bool) :
    ∀ (k : Nat) (ex : List Exchange) (qc : Nat) (ic : Bool) (ex' : List Exchange) (n : Nat),
      maxQuestions - qc ≤ k →
      interviewLoop genQ respond proc ex qc ic = .ok (ex', n) →
      (qc ≤ maxQuestions → n ≤ maxQuestions) ∧ qc ≤ n ∧ ex'.length + qc = ex.length + n := by
  intro k
  induction k with
  | zero =>
      intro ex qc ic ex' n hk hrun
      rw [interviewLoop, dif_neg (fun hc => by omega)] at hrun
      obtain ⟨rfl, rfl⟩ : ex = ex' ∧ qc = n := by
        simpa [Prod.ext_iff] using hrun
      exact ⟨fun hle => hle, le_refl _, rfl⟩
  | succ k ih =>
      intro ex qc ic ex' n hk hrun
      rw [interviewLoop] at hrun
      by_cases hc : ic = false ∧ qc < maxQuestions
      · rw [dif_pos hc] at hrun
        cases hr : respond qc with
        | none =>
            simp only [hr] at hrun
            exact Except.noConfusion hrun
        | some a =>
            simp only [hr] at hrun
            by_cases ha : a = ""
            · rw [if_pos ha] at hrun
              exact Except.noConfusion hrun
            · rw [if_neg ha] at hrun
              have hrec := ih _ _ _ _ _ (by omega) hrun
              obtain ⟨hcap, hmono, hlen⟩ := hrec
              refine ⟨fun _ => hcap (by omega), by omega, ?_⟩
              simp only [List.length_append, List.length_cons, List.length_nil] at hlen ⊢
              omega
      · rw [dif_neg hc] at hrun
        obtain ⟨rfl, rfl⟩ : ex = ex' ∧ qc = n := by
          simpa [Prod.ext_iff] using hrun
        exact ⟨fun hle => hle, le_refl _, rfl⟩

/-- When the collaborator never signals completion and every response
arrives non-empty, the loop runs to the cap exactly. -/
lemma interviewLoop_all_false (genQ : List Exchange → String) (respond : Nat → Option String)
    (proc : String → String → List Exchange → Bool)
    (hproc : ∀ q a ex, proc q a ex = false)
    (hresp : ∀ k, ∃ a, respond k = some a ∧ a ≠ "") :
    ∀ (k : Nat) (ex : List Exchange) (qc : Nat),
      maxQuestions - qc = k → qc ≤ maxQuestions →
      ∃ ex', interviewLoop genQ respond proc ex qc false = .ok (ex', maxQuestions) ∧
        ex'.length = ex.length + (maxQuestions - qc) := by
  intro k
  induction k with
  | zero =>
      intro ex qc hk hle
      have hqc : qc = maxQuestions := by omega
      subst hqc
      rw [interviewLoop, dif_neg (fun hc => absurd hc.2 (lt_irrefl _))]
      exact ⟨ex, rfl, by omega⟩
  | succ k ih =>
      intro ex qc hk hle
      have hlt : qc < maxQuestions := by omega
      obtain ⟨a, hr, ha⟩ := hresp qc
      rw [interviewLoop, dif_pos ⟨rfl, hlt⟩]
      simp only [hr, if_neg ha, hproc]
      obtain ⟨ex', h1, h2⟩ := ih (ex ++ [{ question := genQ ex, answer := a }]) (qc + 1)
        (by omega) (by omega)
      refine ⟨ex', h1, ?_⟩
      simp only [List.length_append, List.length_cons, List.length_nil] at h2
      omega

/-- C5: the interview phase never runs more than 20 iterations and records
one exchange per iteration, whatever the collaborators do; and when the
completion collaborator always answers false and every response arrives
non-empty, it runs exactly 20 iterations, appends exactly 20 exchanges,
and advances the phase to synthesize. -/
theorem interviewPhase_cap_and_exhaustion :
    (∀ (genQ : List Exchange → String) (respond : Nat → Option String)
       (proc : String → String → List Exchange → Bool),
      phaseCount (runInterviewPhase genQ respond proc) ≤ 20 ∧
      phaseExchanges (runInterviewPhase genQ respond proc) =
        phaseCount (runInterviewPhase genQ respond proc)) ∧
    (∀ (genQ : List Exchange → String) (respond : Nat → Option String)
       (proc : String → String → List Exchange → Bool),
      (∀ q a ex, proc q a ex = false) →
      (∀ k, ∃ a, respond k = some a ∧ a ≠ "") →
      ∃ exchanges, runInterviewPhase genQ respond proc =
          .ok (exchanges, 20, Phase.synthesize) ∧
        exchanges.length = 20) := by
  constructor
  · intro genQ respond proc
    unfold runInterviewPhase
    cases hrun : interviewLoop genQ respond proc [] 0 false with
    | error e => simp [phaseCount, phaseExchanges]
    | ok p =>
        obtain ⟨ex, n⟩ := p
        obtain ⟨hcap, -, hlen⟩ :=
          interviewLoop_ok_inv genQ respond proc maxQuestions [] 0 false ex n (by omega) hrun
        have h20 : n ≤ 20 := hcap (by simp [maxQuestions])
        simp only [phaseCount, phaseExchanges]
        refine ⟨h20, ?_⟩
        simpa using hlen
  · intro genQ respond proc hproc hresp
    obtain ⟨ex', h1, h2⟩ :=
      interviewLoop_all_false genQ respond proc hproc hresp maxQuestions [] 0 rfl (by omega)
    refine ⟨ex', ?_, by simpa [maxQuestions] using h2⟩
    unfold runInterviewPhase
    simp only [h1, maxQuestions]

/-- Witness for C5: constant collaborators that never signal completion
drive the loop to exactly 20 exchanges. -/
theorem interviewPhase_cap_and_exhaustion_witness :
    ∃ exchanges, runInterviewPhase (fun _ => "q") (fun _ => some "a") (fun _ _ _ => false) =
        .ok (exchanges, 20, Phase.synthesize) ∧
      exchanges.length = 20 :=
  interviewPhase_cap_and_exhaustion.2 _ _ _ (fun _ _ _ => rfl)
    (fun _ => ⟨"a", rfl, by decide⟩)

/-- The completeness component lies in [0, 40]. -/
lemma completenessScore_bounds (d : InterviewDefinition) (s : InterviewSession) :
    0 ≤ Analyzer.completenessScore d s ∧ Analyzer.completenessScore d s ≤ 40 := by
  unfold Analyzer.completenessScore
  refine ⟨le_min ?_ (by norm_num), min_le_right _ _⟩
  positivity

/-- The quality component lies in [0, 30]. -/
lemma qualityScore_bounds (s : InterviewSession) :
    0 ≤ Analyzer.calculateQualityScore s ∧ Analyzer.calculateQualityScore s ≤ 30 := by
  simp only [Analyzer.calculateQualityScore]
  split_ifs with h
  · constructor
    · refine le_min ?_ (by norm_num)
      positivity
    · exact min_le_right _ _
  · norm_num

/-- The time component lies in [10, 30] and is 15 without a completion
timestamp. -/
lemma timeScore_bounds (s : InterviewSession) :
    10 ≤ Analyzer.calculateTimeScore s ∧ Analyzer.calculateTimeScore s ≤ 30 ∧
    (s.completedAt = none → Analyzer.calculateTimeScore s = 15) := by
  simp only [Analyzer.calculateTimeScore, Analyzer.completionTimeOf]
  cases hca : s.completedAt with
  | none => norm_num
  | some t =>
      refine ⟨?_, ?_, fun hn => Option.noConfusion hn⟩
      · split_ifs with h1 h2 h3 h4
        · norm_num
        · norm_num
        · exact le_max_left _ _
        · exact le_max_left _ _
        · norm_num
      · split_ifs with h1 h2 h3 h4
        · norm_num
        · norm_num
        · refine max_le (by norm_num) ?_
          nlinarith
        · refine max_le (by norm_num) ?_
          nlinarith
        · norm_num

/-- C7: calculateScore is 0 for an unresolvable interview type (without
throwing), always lies in [0, 100], and on resolvable sessions equals the
rounded 100-capped sum of the three components, each within its cap, the
time component defaulting to 15 without timestamps and never dropping
below 10. -/
theorem calculateScore_spec (s : InterviewSession) :
    (getInterviewType s.interviewType = none → Analyzer.calculateScore s = 0) ∧
    0 ≤ Analyzer.calculateScore s ∧ Analyzer.calculateScore s ≤ 100 ∧
    (∀ d, getInterviewType s.interviewType = some d →
      Analyzer.calculateScore s =
        jsRound (min (Analyzer.completenessScore d s + Analyzer.calculateQualityScore s +
          Analyzer.calculateTimeScore s) 100) ∧
      0 ≤ Analyzer.completenessScore d s ∧ Analyzer.completenessScore d s ≤ 40 ∧
      0 ≤ Analyzer.calculateQualityScore s ∧ Analyzer.calculateQualityScore s ≤ 30 ∧
      10 ≤ Analyzer.calculateTimeScore s ∧ Analyzer.calculateTimeScore s ≤ 30 ∧
      (s.completedAt = none → Analyzer.calculateTimeScore s = 15)) := by
  obtain ⟨ht10, ht30, ht15⟩ := timeScore_bounds s
  obtain ⟨hq0, hq30⟩ := qualityScore_bounds s
  have hbounds : 0 ≤ Analyzer.calculateScore s ∧ Analyzer.calculateScore s ≤ 100 := by
    unfold Analyzer.calculateScore
    cases hd : getInterviewType s.interviewType with
    | none => simp
    | some d =>
        obtain ⟨hc0, hc40⟩ := completenessScore_bounds d s
        simp only
        set x : ℚ := min (Analyzer.completenessScore d s + Analyzer.calculateQualityScore s +
          Analyzer.calculateTimeScore s) 100 with hx
        have hx0 : 0 ≤ x := le_min (by linarith) (by norm_num)
        have hx100 : x ≤ 100 := min_le_right _ _
        unfold jsRound
        constructor
        · exact Int.le_floor.mpr (by push_cast; linarith)
        · have hlt : ⌊x + 1 / 2⌋ < 101 := Int.floor_lt.mpr (by push_cast; linarith)
          omega
  refine ⟨?_, hbounds.1, hbounds.2, ?_⟩
  · intro hn
    unfold Analyzer.calculateScore
    simp only [hn]
  · intro d hd
    obtain ⟨hc0, hc40⟩ := completenessScore_bounds d s
    refine ⟨?_, hc0, hc40, hq0, hq30, ht10, ht30, ht15⟩
    unfold Analyzer.calculateScore
    simp only [hd]

/-- Witness for C7: the full-score equation and bounds at a concrete
resolvable session, and the zero result at an unresolvable one. -/
theorem calculateScore_spec_witness :
    Analyzer.calculateScore badSession = 0 ∧
    0 ≤ Analyzer.calculateScore cSession ∧ Analyzer.calculateScore cSession ≤ 100 ∧
    Analyzer.calculateScore cSession =
      jsRound (min (Analyzer.completenessScore GeneralInterviewType cSession +
        Analyzer.calculateQualityScore cSession + Analyzer.calculateTimeScore cSession) 100) :=
  ⟨(calculateScore_spec badSession).1 rfl,
   (calculateScore_spec cSession).2.1,
   (calculateScore_spec cSession).2.2.1,
   ((calculateScore_spec cSession).2.2.2 GeneralInterviewType rfl).1⟩

/-- C8: generateAnalysis fails for any session that is not completed, and
for completed sessions returns completionRate 1, responseCount the number
of stored responses, and completionTime the difference of the completion
and creation timestamps (0 when the completion timestamp is absent). -/
theorem generateAnalysis_spec (s : InterviewSession) :
    (s.status ≠ SStatus.completed →
      Analyzer.generateAnalysis s = .error ("Cannot analyze incomplete session: " ++ s.id)) ∧
    (s.status = SStatus.completed →
      ∃ res, Analyzer.generateAnalysis s = .ok res ∧
        res.completionRate = 1 ∧
        res.responseCount = s.responses.length ∧
        res.completionTime =
          (match s.completedAt with
           | some t => t - s.createdAt
           | none => 0)) := by
  constructor
  · intro h
    unfold Analyzer.generateAnalysis
    rw [if_pos h]
  · intro h
    unfold Analyzer.generateAnalysis
    rw [if_neg (by simp [h])]
    exact ⟨_, rfl, rfl, rfl, rfl⟩

/-- Witness for C8: an active session is rejected, a completed one is
analyzed with the three fields as stated. -/
theorem generateAnalysis_spec_witness :
    Analyzer.generateAnalysis (gSession 0) = .error "Cannot analyze incomplete session: s" ∧
    (∃ res, Analyzer.generateAnalysis cSession = .ok res ∧
      res.completionRate = 1 ∧
      res.responseCount = cSession.responses.length ∧
      res.completionTime =
        (match cSession.completedAt with
         | some t => t - cSession.createdAt
         | none => 0)) :=
  ⟨(generateAnalysis_spec (gSession 0)).1 (by decide),
   (generateAnalysis_spec cSession).2 rfl⟩

/-- Counterexample to C10 as stated: with 4 prior exchanges, the answer
nothing else contains the substring no, yet the substring variant returns
the User indicated completion reason, because the userDone branch runs
first; so a no-containing answer does not always yield the Sufficient
context gathered reason. -/
theorem substrVariant_counterexample :
    processResponseSubstrVariant "nothing else" ex4 =
      { complete := true, reason := some "User indicated completion" } ∧
    listContains (lowerChars "nothing else".data) "no".data = true ∧
    ex4.length = 4 ∧
    some "User indicated completion" ≠ some "Sufficient context gathered" := by
  refine ⟨by decide, by decide, by decide, by decide⟩

/-- C10 amended: in the substring variant, with at least 4 prior
exchanges, an answer whose lowercased text contains the substring no and
that does not hit the higher-precedence userDone containment check
returns complete with the Sufficient context gathered reason; the regex
variant returns that reason only when the trimmed answer is at most 30
characters and is exactly a standalone negative (with optional trailing
period), after at least 4 prior exchanges. -/
theorem processResponse_negative_gate (answer : String) (exchanges : List Exchange) :
    (4 ≤ exchanges.length →
      listContains (lowerChars answer.data) "no".data = true →
      substrUserDone answer = false →
      processResponseSubstrVariant answer exchanges =
        { complete := true, reason := some "Sufficient context gathered" }) ∧
    (processResponseRegexVariant answer exchanges =
        { complete := true, reason := some "Sufficient context gathered" } →
      (jsTrim answer.data).length ≤ 30 ∧
      negativeMatch (lowerChars (jsTrim answer.data)) = true ∧
      4 ≤ exchanges.length) := by
  constructor
  · intro h4 hno hdone
    have h5 : (decide (exchanges.length + 1 ≥ 5)) = true := decide_eq_true (by omega)
    simp only [processResponseSubstrVariant, hdone, hno, h5, Bool.false_and, Bool.and_true,
      Bool.true_and, Bool.and_self, if_false, if_true, Bool.false_eq_true, ite_false, ite_true]
  · intro h
    simp only [processResponseRegexVariant] at h
    split_ifs at h with h1 h2 h3
    · exact absurd h (by decide)
    · exact absurd h (by decide)
    · rw [Bool.and_eq_true, Bool.and_eq_true] at h3
      obtain ⟨⟨ha, hb⟩, hc⟩ := h3
      exact ⟨of_decide_eq_true hb, hc, by have := of_decide_eq_true ha; omega⟩
    · exact absurd h (by decide)

/-- Witness for C10 amended: not now after 4 prior exchanges triggers the
Sufficient context gathered result in the substring variant, and the
standalone no does so in the regex variant. -/
theorem processResponse_negative_gate_witness :
    processResponseSubstrVariant "not now" ex4 =
      { complete := true, reason := some "Sufficient context gathered" } ∧
    ((jsTrim ("no" : String).data).length ≤ 30 ∧
      negativeMatch (lowerChars (jsTrim ("no" : String).data)) = true ∧
      4 ≤ ex4.length) :=
  ⟨(processResponse_negative_gate "not now" ex4).1 (by decide) (by decide) (by decide),
   (processResponse_negative_gate "no" ex4).2 (by decide)⟩
